import Mathlib

/-!
Verification development for the `esia-connector` repository
(`esia_client/client.py`, `esia_client/async_client.py`, `esia_client/utils.py`).

The Python sources are shallowly embedded below:
pure helpers become Lean functions, the two HTTP transports become
classification functions over an explicit response record, and the flow
methods become functions that take the HTTP layer as an explicit
`transport` argument and additionally return the list of request URLs
they issued (so that "no request was issued" is a provable statement).
External collaborators (the `json` codec, the OpenSSL signer, the HTTP
stack) are passed in as function parameters, exactly where the source
calls into those libraries.
-/

/-- Modelled from the spec: the repository's `esia_client/exceptions.py`
module is not among the given sources (only `client.py`, `async_client.py`
and `utils.py` are); the sources raise `esia_client.exceptions.EsiaError`,
`HttpError`, `IncorrectJsonError` and `IncorrectMarkerError`, and
`utils.py` defines `FoundLocation(EsiaError)`.  Following spec section 7
each exception class becomes one constructor; `sessionNotStarted` stands
for the session-state error the spec describes, and `pyError` stands for
an uncaught Python builtin exception (`KeyError`, `IndexError`,
`AttributeError`, `TypeError`) escaping the client code.  One constructor
models one exception class: Python callers distinguish errors by class in
`except` clauses, so the message/args carried by an instance are not part
of the model. -/
inductive EsiaErr where
  | esiaError (msg : String)
  | httpError
  | incorrectJsonError
  | incorrectMarkerError
  | foundLocation (location : String)
  | sessionNotStarted
  | pyError (kind : String)
deriving DecidableEq

/-- `Scope` enumeration from `client.py` lines 18-36. -/
inductive Scope where
  | authorization
  | fullname
  | birthdate
  | sex
  | snils
  | inn
  | documents
  | birthplace
  | email
  | phone
  | biometry
  | verificationResult
deriving DecidableEq

/-- `str(scope)`: the `value` of each enum member (`Scope.__str__`). -/
def Scope.str : Scope → String
  | .authorization => "openid"
  | .fullname => "fullname"
  | .birthdate => "birthdate"
  | .sex => "gender"
  | .snils => "snils"
  | .inn => "inn"
  | .documents => "id_doc"
  | .birthplace => "birthplace"
  | .email => "email"
  | .phone => "mobile"
  | .biometry => "bio"
  | .verificationResult => "ext_auth_result"

/-- `Settings` (`client.py` lines 39-67).  The certificate and private key
are consumed only by the signer, which the embedding passes around as a
function `sgn : String → String`, so they are not stored here; the request
timeout plays no role in any claim. -/
structure Settings where
  esia_client_id : String
  redirect_uri : String
  esia_service_url : String
  scopes : List Scope

/-- `Settings.scope_string`: `' '.join(str(x) for x in self.scopes)`. -/
def Settings.scope_string (s : Settings) : String :=
  String.intercalate " " (s.scopes.map Scope.str)

/-- Python `dict` as an association list that keeps first-insertion order.
`dinsert` is `d[k] = v`: it replaces the value in place when the key is
present and appends otherwise. -/
def dinsert : List (String × String) → String → String → List (String × String)
  | [], k, v => [(k, v)]
  | (k1, v1) :: rest, k, v =>
    if k1 = k then (k1, v) :: rest else (k1, v1) :: dinsert rest k v

/-- `d.get(k)` / `d[k]` lookup (first binding wins, as in a Python dict
built by `dinsert`). -/
def dget : List (String × String) → String → Option String
  | [], _ => none
  | (k1, v1) :: rest, k => if k1 = k then some v1 else dget rest k

/-- `{**d, **kvs}`: insert the bindings of `kvs` into `d` in order. -/
def dextend (d : List (String × String)) (kvs : List (String × String)) :
    List (String × String) :=
  kvs.foldl (fun acc kv => dinsert acc kv.1 kv.2) d

/-- `params.get(k, '')`. -/
def pyGetStr (d : List (String × String)) (k : String) : String :=
  (dget d k).getD ""

/-- Python truthiness-based defaulting `x or dflt` for strings
(the empty string is falsy). -/
def pyOrStr (x : Option String) (dflt : String) : String :=
  match x with
  | none => dflt
  | some s => if s = "" then dflt else s

/-- `str(x)` for the optional `session_id` field (`str(None) = "None"`). -/
def pyStrOpt : Option String → String
  | none => "None"
  | some s => s

/-- Python `str.split(sep)` for a one-character separator, over the
character list of the string (`"a&&b".split('&') == ['a','','b']`,
`"".split('&') == ['']`). -/
def splitOnChar (c : Char) : List Char → List (List Char)
  | [] => [[]]
  | x :: xs =>
    let r := splitOnChar c xs
    if x = c then [] :: r
    else
      match r with
      | [] => [[x]]
      | h :: t => (x :: h) :: t

/-- `sep.join(parts)` for character-list parts. -/
def joinWith (sep : List Char) : List (List Char) → List Char
  | [] => []
  | [x] => x
  | x :: y :: rest => x ++ sep ++ joinWith sep (y :: rest)

/-! ### base64url codec (stdlib `base64.urlsafe_b64encode` / `urlsafe_b64decode`),
as used by `utils.decode_payload` and by the provider producing tokens. -/

/-- The base64url alphabet: sextet index to character
(`A-Z`, `a-z`, `0-9`, `-`, `_`). -/
def b64char (n : Nat) : Char :=
  if n < 26 then Char.ofNat (65 + n)
  else if n < 52 then Char.ofNat (97 + (n - 26))
  else if n < 62 then Char.ofNat (48 + (n - 52))
  else if n = 62 then '-'
  else '_'

/-- Character to sextet index; `none` for a character outside the
base64url alphabet. -/
def b64val (ch : Char) : Option Nat :=
  let n := ch.toNat
  if 65 ≤ n ∧ n ≤ 90 then some (n - 65)
  else if 97 ≤ n ∧ n ≤ 122 then some (n - 97 + 26)
  else if 48 ≤ n ∧ n ≤ 57 then some (n - 48 + 52)
  else if ch = '-' then some 62
  else if ch = '_' then some 63
  else none

/-- base64url encoding of a byte list (bytes as `Nat < 256`); produces the
standard `=`-padded form, grouping three bytes into four characters. -/
def b64EncGroups : List Nat → List Char
  | [] => []
  | [a] => [b64char (a / 4), b64char (a % 4 * 16), '=', '=']
  | [a, b] =>
    [b64char (a / 4), b64char (a % 4 * 16 + b / 16), b64char (b % 16 * 4), '=']
  | a :: b :: c :: rest =>
    b64char (a / 4) :: b64char (a % 4 * 16 + b / 16) ::
      b64char (b % 16 * 4 + c / 64) :: b64char (c % 64) :: b64EncGroups rest

/-- Decode a final quad `c1 c2 == ` (one byte). -/
def b64DecGroup2 (c1 c2 : Char) : Option (List Nat) :=
  match b64val c1, b64val c2 with
  | some v1, some v2 => some [v1 * 4 + v2 / 16]
  | _, _ => none

/-- Decode a final quad `c1 c2 c3 =` (two bytes). -/
def b64DecGroup3 (c1 c2 c3 : Char) : Option (List Nat) :=
  match b64val c1, b64val c2, b64val c3 with
  | some v1, some v2, some v3 => some [v1 * 4 + v2 / 16, v2 % 16 * 16 + v3 / 4]
  | _, _, _ => none

/-- Decode a full quad (three bytes). -/
def b64DecGroup4 (c1 c2 c3 c4 : Char) : Option (List Nat) :=
  match b64val c1, b64val c2, b64val c3, b64val c4 with
  | some v1, some v2, some v3, some v4 =>
    some [v1 * 4 + v2 / 16, v2 % 16 * 16 + v3 / 4, v3 % 4 * 64 + v4]
  | _, _, _, _ => none

/-- base64url decoding: quads of characters to bytes, accepting `=`
padding only at the end; `none` models `binascii.Error`/`ValueError`
(any such failure is caught by `decode_payload`, see below, so only the
success/failure split matters to the embedding). -/
def b64decodeChars : List Char → Option (List Nat)
  | [] => some []
  | c1 :: c2 :: c3 :: c4 :: rest =>
    if c4 = '=' then
      if rest = [] then
        if c3 = '=' then b64DecGroup2 c1 c2 else b64DecGroup3 c1 c2 c3
      else none
    else
      match b64DecGroup4 c1 c2 c3 c4, b64decodeChars rest with
      | some g, some r => some (g ++ r)
      | _, _ => none
  | _ => none

/-- Lines 128-129 of `utils.decode_payload`:
`offset = len(s) % 4; s += '=' * (4 - offset) if offset else ''`. -/
def padTo4 (s : List Char) : List Char :=
  if s.length % 4 = 0 then s else s ++ List.replicate (4 - s.length % 4) '='

/-- Drop leading `=` characters (helper for `stripPad`). -/
def dropPads : List Char → List Char
  | [] => []
  | ch :: rest => if ch = '=' then dropPads rest else ch :: rest

/-- Strip trailing `=` padding.  This is the token producer's side of the
round-trip stated by the spec ("encoding ... with padding stripped"): the
identity provider omits trailing padding from token segments. -/
def stripPad (s : List Char) : List Char :=
  (dropPads s.reverse).reverse

/-- `utils.decode_payload` (lines 120-134): re-pad to a multiple of four,
base64url-decode, parse the bytes as JSON.  The `json.loads` collaborator
is the `parse` parameter; the Python `except (ValueError, Exception)`
clause catches every exception, so each failure of either step becomes
`IncorrectMarkerError`. -/
def decode_payload {α : Type} (parse : List Nat → Option α) (s : String) :
    Except EsiaErr α :=
  match b64decodeChars (padTo4 s.data) with
  | none => Except.error EsiaErr.incorrectMarkerError
  | some bytes =>
    match parse bytes with
    | none => Except.error EsiaErr.incorrectMarkerError
    | some v => Except.ok v

/-! ### Authorization flow (`client.py`, class `Auth`) -/

/-- JSON claims value, as far as `Auth._get_user_id` inspects the decoded
payload: a claim value is a string or a nested object. -/
inductive JVal where
  | jstr : String → JVal
  | jdict : List (String × JVal) → JVal

/-- Lookup in a decoded claims object (`payload[k]`, first binding wins). -/
def lookupJ : List (String × JVal) → String → Option JVal
  | [], _ => none
  | (k1, v) :: rest, k => if k1 = k then some v else lookupJ rest k

/-- `Auth._sign_params` (`client.py` lines 162-179): builds the `parts`
tuple `(str(params.get('scope','')), params.get('timestamp',''),
params.get('client_id',''), str(params.get('state','')))`, joins it with
`''.join`, signs the result (`sgn` stands for `utils.sign` applied to the
configured certificate and key), and stores the signature under
`client_secret`. -/
def sign_params (sgn : String → String) (params : List (String × String)) :
    List (String × String) :=
  let parts : List String :=
    [pyGetStr params "scope", pyGetStr params "timestamp",
     pyGetStr params "client_id", pyGetStr params "state"]
  dinsert params "client_secret" (sgn (String.join parts))

/-- `' '.join([str(x) for x in scopes]) if scopes else settings.scope_string`
(`scopes = None` and `scopes = []` are both falsy). -/
def resolveScopes (st : Settings) (scopes : Option (List Scope)) : String :=
  match scopes with
  | some (x :: xs) => String.intercalate " " ((x :: xs).map Scope.str)
  | _ => st.scope_string

/-- The `state` actually used by `Auth.get_auth_url`: the parameter
defaults to `uuid.uuid4()` evaluated once at function-definition time
(`defaultState` below), and the body computes `state or str(uuid.uuid4())`
(`fresh` stands for the per-call `str(uuid.uuid4())`). -/
def resolveState (defaultState : String) (state : Option String)
    (fresh : String) : String :=
  let s := state.getD defaultState
  if s = "" then fresh else s

/-- The query parameters of the URL returned by `Auth.get_auth_url`
(`client.py` lines 181-207): the params dict literal in source order
with `**kwargs` merged at the end, then signed by `_sign_params`.
`timestamp` stands for `utils.get_timestamp()` at this call, `fresh` for
`str(uuid.uuid4())` at this call, and `defaultState` for the module-import
time `uuid.uuid4()` default of the `state` parameter.  (The Python
parameter names `state`, `redirect_uri` and `scopes` bind positionally,
so `kwargs` never carries those three keys; no theorem below relies on
that restriction.) -/
def get_auth_url_params (st : Settings) (defaultState : String)
    (state : Option String) (redirect_uri : Option String)
    (scopes : Option (List Scope)) (kwargs : List (String × String))
    (timestamp fresh : String) (sgn : String → String) :
    List (String × String) :=
  let base : List (String × String) :=
    [("client_id", st.esia_client_id),
     ("redirect_uri", pyOrStr redirect_uri st.redirect_uri),
     ("scope", resolveScopes st scopes),
     ("response_type", "code"),
     ("state", resolveState defaultState state fresh),
     ("timestamp", timestamp),
     ("access_type", "offline")]
  sign_params sgn (dextend base kwargs)

/-- `Auth.get_auth_url`: authorization endpoint plus its query
parameters (`str((esia_service_url / _AUTHORIZATION_URL).add(args=params))`). -/
def get_auth_url (st : Settings) (defaultState : String)
    (state : Option String) (redirect_uri : Option String)
    (scopes : Option (List Scope)) (kwargs : List (String × String))
    (timestamp fresh : String) (sgn : String → String) :
    String × List (String × String) :=
  (st.esia_service_url ++ "/aas/oauth2/ac",
   get_auth_url_params st defaultState state redirect_uri scopes kwargs
     timestamp fresh sgn)

/-- `Auth._get_user_id` (`client.py` lines 260-270):
`payload['urn:esia:sbj']['urn:esia:sbj:oid']`; a `KeyError` at either
level is caught and re-raised as `IncorrectMarkerError(payload)`
(the same exception class `decode_payload` uses for decode failures);
subscripting a non-dict value raises `TypeError`, which the
`except KeyError` clause does not catch. -/
def getUserId (payload : List (String × JVal)) : Except EsiaErr JVal :=
  match lookupJ payload "urn:esia:sbj" with
  | none => Except.error EsiaErr.incorrectMarkerError
  | some (JVal.jstr _) => Except.error (EsiaErr.pyError "TypeError")
  | some (JVal.jdict d) =>
    match lookupJ d "urn:esia:sbj:oid" with
    | none => Except.error EsiaErr.incorrectMarkerError
    | some v => Except.ok v

/-- `Auth.complete_authorization` (`client.py` lines 209-258): builds and
signs the token-exchange params, POSTs them (`transport` stands for
`utils.make_request` on the token endpoint; it receives the URL and the
form params and yields the classified response, a JSON object whose
fields of interest are strings), reads `access_token` and `id_token`,
decodes the middle dot-separated segment of the ID token and extracts the
subject identifier.  Missing response keys raise Python `KeyError`; a
token without a second segment raises `IndexError`.  Returns the data of
the constructed `UserInfo` (access token and extracted oid). -/
def complete_authorization (parse : List Nat → Option (List (String × JVal)))
    (st : Settings) (code : String) (state : Option String)
    (redirect_uri : Option String) (scopes : Option (List Scope))
    (timestamp fresh : String) (sgn : String → String)
    (transport : String → List (String × String) →
      Except EsiaErr (List (String × String))) :
    Except EsiaErr (String × JVal) :=
  let state1 := pyOrStr state fresh
  let params := sign_params sgn
    [("client_id", st.esia_client_id),
     ("code", code),
     ("grant_type", "authorization_code"),
     ("redirect_uri", pyOrStr redirect_uri st.redirect_uri),
     ("timestamp", timestamp),
     ("token_type", "Bearer"),
     ("scope", resolveScopes st scopes),
     ("state", state1)]
  match transport (st.esia_service_url ++ "/aas/oauth2/te") params with
  | Except.error e => Except.error e
  | Except.ok resp =>
    match dget resp "access_token" with
    | none => Except.error (EsiaErr.pyError "KeyError")
    | some access_token =>
      match dget resp "id_token" with
      | none => Except.error (EsiaErr.pyError "KeyError")
      | some id_token =>
        match (splitOnChar '.' id_token.data).get? 1 with
        | none => Except.error (EsiaErr.pyError "IndexError")
        | some seg =>
          match decode_payload parse (String.mk seg) with
          | Except.error e => Except.error e
          | Except.ok payload =>
            match getUserId payload with
            | Except.error e => Except.error e
            | Except.ok oid => Except.ok (access_token, oid)

/-! ### HTTP transport (`utils.make_request`, `utils.make_async_request`) -/

/-- What the synchronous transport observes of a `requests` response:
status code, optional `Location` header, the `Content-type` header
(`none` when absent: the source subscripts `response.headers['Content-type']`,
so absence raises `KeyError`), and the JSON body (`none` when
`response.json()` raises `ValueError`). -/
structure HttpResponse where
  status : Nat
  location : Option String
  content_type : Option String
  json_body : Option (List (String × String))

/-- What the asynchronous transport observes of an `aiohttp` response;
`aiohttp`'s `response.content_type` is always a string (it defaults the
header), hence no option there. -/
structure AsyncHttpResponse where
  status : Nat
  location : Option String
  content_type : String
  json_body : Option (List (String × String))

/-- Truthiness of `response.headers.get('Location')`: absent headers give
`None` and an empty string is falsy. -/
def truthyOptStr : Option String → Bool
  | none => false
  | some s => s != ""

/-- `utils.make_request` (lines 23-55) as response classification:
`raise_for_status()` (`requests` raises for 400-599) becomes `HttpError`;
then a 200/302 status with a truthy `Location` header raises
`FoundLocation` (an `EsiaError` subclass, caught by neither the
`requests.HTTPError` nor the `ValueError` clause, so it propagates
unchanged); then a non-`application/json` content type or a JSON parse
failure becomes `IncorrectJsonError`; otherwise the parsed body is
returned. -/
def make_request (r : HttpResponse) : Except EsiaErr (List (String × String)) :=
  if 400 ≤ r.status ∧ r.status < 600 then Except.error EsiaErr.httpError
  else if (r.status == 200 || r.status == 302) && truthyOptStr r.location then
    Except.error (EsiaErr.foundLocation (r.location.getD ""))
  else
    match r.content_type with
    | none => Except.error (EsiaErr.pyError "KeyError")
    | some ct =>
      if ct.startsWith "application/json" then
        match r.json_body with
        | none => Except.error EsiaErr.incorrectJsonError
        | some j => Except.ok j
      else Except.error EsiaErr.incorrectJsonError

/-- `utils.make_async_request` (lines 57-91): identical classification,
except that `aiohttp.raise_for_status` raises for every status `≥ 400`
and the content type is never absent. -/
def make_async_request (r : AsyncHttpResponse) :
    Except EsiaErr (List (String × String)) :=
  if 400 ≤ r.status then Except.error EsiaErr.httpError
  else if (r.status == 200 || r.status == 302) && truthyOptStr r.location then
    Except.error (EsiaErr.foundLocation (r.location.getD ""))
  else if r.content_type.startsWith "application/json" then
    match r.json_body with
    | none => Except.error EsiaErr.incorrectJsonError
    | some j => Except.ok j
  else Except.error EsiaErr.incorrectJsonError

/-! ### Verification (EBS) session (`client.py` class `EBS`,
`async_client.py` class `AsyncEBS`) -/

/-- The state of an `EBS` instance (`client.py` lines 277-282): `__init__`
stores `oid`, `token`, `settings` (carried separately where needed),
`service_url` (defaulting to `_SERIVCE_URL`) and `session_id`, which
defaults to `None`. -/
structure EBSState where
  oid : String
  token : String
  service_url : String
  session_id : Option String

/-- The result URL built by `EBS.get_result` (line 312):
`service_url / _VERIFICATION_URL / str(session_id) / 'result'` with
`_VERIFICATION_URL = '/api/v2/verifications'`; an unset session renders
as the literal text `None`. -/
def ebsResultUrl (e : EBSState) : String :=
  e.service_url ++ "/api/v2/verifications/" ++ pyStrOpt e.session_id ++ "/result"

/-- `EBS.get_result` (`client.py` lines 310-317): unconditionally GETs the
result URL (the `transport` parameter stands for `utils.make_request`
with the bearer header; its classified outcome is a JSON object of string
fields), reads `response['extended_result']`, takes the second
dot-separated segment and decodes it with `decode_payload`.
The second component of the result is the list of request URLs issued. -/
def ebs_get_result {α : Type} (parse : List Nat → Option α) (e : EBSState)
    (transport : String → Except EsiaErr (List (String × String))) :
    Except EsiaErr α × List String :=
  let url := ebsResultUrl e
  (match transport url with
   | Except.error err => Except.error err
   | Except.ok resp =>
     match dget resp "extended_result" with
     | none => Except.error (EsiaErr.pyError "KeyError")
     | some tok =>
       match (splitOnChar '.' tok.data).get? 1 with
       | none => Except.error (EsiaErr.pyError "IndexError")
       | some seg => decode_payload parse (String.mk seg),
   [url])

/-- The query string of a URL, as `urllib.parse.urlparse(loc).query` and
`furl.furl(loc).args` both extract it: the fragment starts at the first
`#`; the query is what follows the first `?` before the fragment. -/
def queryOf (loc : String) : List Char :=
  let noFrag := (splitOnChar '#' loc.data).headD []
  match splitOnChar '?' noFrag with
  | [] => []
  | [_] => []
  | _ :: rest => joinWith ['?'] rest

/-- One `k=v` query-string token as `furl` parses it: split at the first
`=`; the value keeps any further `=` characters; a token without `=` has
an empty value. -/
def parseParam (p : List Char) : List Char × List Char :=
  match splitOnChar '=' p with
  | [] => ([], [])
  | [k] => (k, [])
  | k :: vs => (k, joinWith ['='] vs)

/-- `furl(loc).args`: every `&`-separated token of the query string,
parsed as `k=v`. -/
def parseQS (q : List Char) : List (List Char × List Char) :=
  (splitOnChar '&' q).map parseParam

/-- First-match lookup among parsed query parameters
(`furl(...).args['k']` returns the first value; `none` models the
`KeyError` on a missing name). -/
def lookupCharQS : List (List Char × List Char) → List Char → Option (List Char)
  | [], _ => none
  | (k1, v) :: rest, k => if k1 = k then some v else lookupCharQS rest k

/-- The name of the session-id query parameter, as a character list. -/
def sessionKey : List Char :=
  "session_id".data

/-- Session-id extraction of the synchronous `EBS.start_verification`
(`client.py` line 304): `furl.furl(e.location).args['session_id']` —
named lookup in the parsed query string. -/
def syncSessionId (loc : String) : Option String :=
  match lookupCharQS (parseQS (queryOf loc)) sessionKey with
  | none => none
  | some v => some (String.mk v)

/-- Session-id extraction of `AsyncEBS.start_verification`
(`async_client.py` line 142):
`urllib.parse.urlparse(e.location).query.split('&')[0].split('=')[1]` —
the value of whatever parameter happens to come first (`none` models the
`IndexError` when the first token has no `=`). -/
def asyncSessionId (loc : String) : Option String :=
  match (splitOnChar '=' ((splitOnChar '&' (queryOf loc)).headD [])).get? 1 with
  | none => none
  | some v => some (String.mk v)

/-- `EBS.start_verification` (`client.py` lines 288-308): POST to
`service_url / _VERIFICATION_URL` (with redirect query parameter and
metadata body, both folded into the `transport` collaborator); a
`FoundLocation` raised by the transport is caught, the session id is
extracted from the Location by named lookup and assigned, and the
location is returned; any other error propagates; a plain JSON body
raises `EsiaError('Unexpected response: ...')`.  Components: outcome,
the value assigned to `session_id` (if any), request URLs issued. -/
def ebs_start_verification (e : EBSState)
    (transport : String → Except EsiaErr (List (String × String))) :
    Except EsiaErr String × Option String × List String :=
  let url := e.service_url ++ "/api/v2/verifications"
  match transport url with
  | Except.error (EsiaErr.foundLocation l) =>
    (match syncSessionId l with
     | none => (Except.error (EsiaErr.pyError "KeyError"), none, [url])
     | some sid => (Except.ok l, some sid, [url]))
  | Except.error err => (Except.error err, none, [url])
  | Except.ok _ => (Except.error (EsiaErr.esiaError "Unexpected response"), none, [url])

/-- The attribute environment of an `AsyncEBS` instance: the instance
fields written by `EBS.__init__` plus the class attributes of `AsyncEBS`,
`EBS` and `object` that carry string values.  (`settings` holds a
`Settings` object; its value is irrelevant to attribute lookup, only its
presence, so it is carried as a placeholder string.)  Neither class
defines `host`, `_START_URL` or `_RESULT_URL`. -/
def asyncEBSAttrs (oid token settingsRepr service_url : String)
    (session_id : Option String) : List (String × String) :=
  [("oid", oid), ("token", token), ("settings", settingsRepr),
   ("service_url", service_url), ("session_id", pyStrOpt session_id),
   ("_SERIVCE_URL", "https://ebs-int.rtlabs.ru"),
   ("_VERIFICATION_URL", "/api/v2/verifications")]

/-- `AsyncEBS.start_verification` (`async_client.py` lines 126-146): the
request URL is the f-string `f'{self.host}{self._START_URL}'`, evaluated
left to right, so a missing attribute raises `AttributeError` before any
request is made; on a `FoundLocation` the session id is extracted by
split-indexing and assigned; a plain body raises the unexpected-response
error.  Components as in `ebs_start_verification`. -/
def async_start_verification (attrs : List (String × String))
    (transport : String → Except EsiaErr (List (String × String))) :
    Except EsiaErr String × Option String × List String :=
  match dget attrs "host" with
  | none => (Except.error (EsiaErr.pyError "AttributeError"), none, [])
  | some host =>
    match dget attrs "_START_URL" with
    | none => (Except.error (EsiaErr.pyError "AttributeError"), none, [])
    | some su =>
      let url := host ++ su
      match transport url with
      | Except.error (EsiaErr.foundLocation l) =>
        (match asyncSessionId l with
         | none => (Except.error (EsiaErr.pyError "IndexError"), none, [url])
         | some sid => (Except.ok l, some sid, [url]))
      | Except.error err => (Except.error err, none, [url])
      | Except.ok _ =>
        (Except.error (EsiaErr.esiaError "Unexpected response"), none, [url])

/-- `AsyncEBS.get_result` (`async_client.py` lines 148-154): the URL is
`f'{self.host}{self._RESULT_URL.format(sessid=self.session_id)}'`, again
failing with `AttributeError` before the request when `host` or
`_RESULT_URL` is undefined (`fmt` stands for `str.format` applied to the
template, were it to exist); then the same extended-result decoding as
the synchronous version. -/
def async_get_result {α : Type} (parse : List Nat → Option α)
    (attrs : List (String × String)) (fmt : String → String → String)
    (transport : String → Except EsiaErr (List (String × String))) :
    Except EsiaErr α × List String :=
  match dget attrs "host" with
  | none => (Except.error (EsiaErr.pyError "AttributeError"), [])
  | some host =>
    match dget attrs "_RESULT_URL" with
    | none => (Except.error (EsiaErr.pyError "AttributeError"), [])
    | some ru =>
      let url := host ++ fmt ru (pyGetStr attrs "session_id")
      (match transport url with
       | Except.error err => Except.error err
       | Except.ok resp =>
         match dget resp "extended_result" with
         | none => Except.error (EsiaErr.pyError "KeyError")
         | some tok =>
           match (splitOnChar '.' tok.data).get? 1 with
           | none => Except.error (EsiaErr.pyError "IndexError")
           | some seg => decode_payload parse (String.mk seg),
       [url])

/-! ### Shared concrete instances for witnesses and counterexamples -/

/-- A concrete `Settings` value. -/
def exampleSettings : Settings :=
  { esia_client_id := "CLIENT"
    redirect_uri := "https://app/cb"
    esia_service_url := "https://esia.gosuslugi.ru"
    scopes := [Scope.authorization, Scope.email] }

/-- A concrete `EBS` instance fresh out of `__init__`, session not yet
assigned. -/
def ebsUnstarted : EBSState :=
  { oid := "1000299654"
    token := "TOKEN"
    service_url := "https://ebs-int.rtlabs.ru"
    session_id := none }

/-- A stub for `json.loads`, faithful on the one input exercised by the
counterexample below: the byte string `b"{}"` (bytes 123, 125) parses to
the empty JSON object. -/
def parseEmptyObj : List Nat → Option (List (String × JVal)) :=
  fun bs => if bs = [123, 125] then some [] else none

/-! ### Helper lemmas -/

/-- After `d[k] = v`, looking up `k` yields `v`. -/
theorem dget_dinsert_self (d : List (String × String)) (k v : String) :
    dget (dinsert d k v) k = some v := by
  induction d with
  | nil => simp [dinsert, dget]
  | cons kv rest ih =>
    obtain ⟨k1, v1⟩ := kv
    by_cases h : k1 = k
    · simp [dinsert, dget, h]
    · simp [dinsert, dget, h, ih]

/-- Inserting under a different key does not change a lookup. -/
theorem dget_dinsert_ne (d : List (String × String)) (k k2 v : String)
    (h : k ≠ k2) : dget (dinsert d k2 v) k = dget d k := by
  have h2k : k2 ≠ k := Ne.symm h
  induction d with
  | nil => simp [dinsert, dget, h2k]
  | cons kv rest ih =>
    obtain ⟨k1, v1⟩ := kv
    by_cases h1 : k1 = k2
    · subst h1
      simp [dinsert, dget, h2k]
    · by_cases hk : k1 = k <;> simp [dinsert, dget, h1, hk, ih, h]

/-- Merging extra bindings none of which uses key `k` does not change the
lookup of `k`. -/
theorem dget_dextend_ne (d : List (String × String))
    (kvs : List (String × String)) (k : String)
    (h : ∀ kv ∈ kvs, kv.1 ≠ k) : dget (dextend d kvs) k = dget d k := by
  induction kvs generalizing d with
  | nil => rfl
  | cons kv rest ih =>
    have hk : kv.1 ≠ k := h kv (by simp)
    have hrest : ∀ kv2 ∈ rest, kv2.1 ≠ k := fun kv2 hm => h kv2 (by simp [hm])
    calc dget (dextend d (kv :: rest)) k
        = dget (dextend (dinsert d kv.1 kv.2) rest) k := rfl
      _ = dget (dinsert d kv.1 kv.2) k := ih _ hrest
      _ = dget d k := dget_dinsert_ne _ _ _ _ (Ne.symm hk)

/-- `''.join` of a four-element list is plain concatenation. -/
theorem string_join_four (a b c d : String) :
    String.join [a, b, c, d] = a ++ b ++ c ++ d := by
  simp only [String.join, List.foldl]
  rw [String.empty_append]

/-- The alphabet map and its inverse cancel on sextets. -/
theorem b64val_b64char {n : Nat} (h : n < 64) : b64val (b64char n) = some n := by
  have H : ∀ m : Fin 64, b64val (b64char m.val) = some m.val := by decide
  exact H ⟨n, h⟩

/-- No alphabet character is the padding character. -/
theorem b64char_ne_pad {n : Nat} (h : n < 64) : b64char n ≠ '=' := by
  have H : ∀ m : Fin 64, b64char m.val ≠ '=' := by decide
  exact H ⟨n, h⟩

/-- How `dropPads` distributes over an append. -/
theorem dropPads_append (xs ys : List Char) :
    dropPads (xs ++ ys) =
      if dropPads xs = [] then dropPads ys else dropPads xs ++ ys := by
  induction xs with
  | nil => simp [dropPads]
  | cons ch xs ih =>
    by_cases hc : ch = '='
    · simpa [dropPads, hc] using ih
    · simp [dropPads, hc]

/-- Stripping trailing padding passes over a leading quad that ends in a
non-padding character. -/
theorem stripPad_cons4 (c1 c2 c3 c4 : Char) (h : ¬ c4 = '=') (E : List Char) :
    stripPad (c1 :: c2 :: c3 :: c4 :: E) = c1 :: c2 :: c3 :: c4 :: stripPad E := by
  unfold stripPad
  have hrev : (c1 :: c2 :: c3 :: c4 :: E).reverse = E.reverse ++ [c4, c3, c2, c1] := by
    simp
  rw [hrev, dropPads_append]
  by_cases hE : dropPads E.reverse = []
  · rw [if_pos hE, hE]
    simp [dropPads, h]
  · rw [if_neg hE]
    simp

/-- Re-padding passes over a leading quad. -/
theorem padTo4_cons4 (c1 c2 c3 c4 : Char) (S : List Char) :
    padTo4 (c1 :: c2 :: c3 :: c4 :: S) = c1 :: c2 :: c3 :: c4 :: padTo4 S := by
  unfold padTo4
  have hl : (c1 :: c2 :: c3 :: c4 :: S).length = S.length + 4 := by
    simp
  rw [hl]
  have hmod : (S.length + 4) % 4 = S.length % 4 := by omega
  rw [hmod]
  by_cases h0 : S.length % 4 = 0
  · rw [if_pos h0, if_pos h0]
  · rw [if_neg h0, if_neg h0]
    simp

/-- Stripping the padding the encoder emitted and re-padding with
`decode_payload`'s rule, then decoding, recovers the original bytes.
This is the content of the codec round-trip: it covers every padding
remainder the encoder can produce (0, 1 or 2 characters stripped; a
stripped length of 1 mod 4, i.e. 3 characters, cannot arise from any
byte string). -/
theorem b64_roundtrip : ∀ (bs : List Nat), (∀ x ∈ bs, x < 256) →
    b64decodeChars (padTo4 (stripPad (b64EncGroups bs))) = some bs
  | [], _ => rfl
  | [a], h => by
    have ha : a < 256 := h a (by simp)
    have h2 : b64char (a % 4 * 16) ≠ '=' := b64char_ne_pad (by omega)
    show b64decodeChars (padTo4 (stripPad
      [b64char (a / 4), b64char (a % 4 * 16), '=', '='])) = some [a]
    rw [show stripPad [b64char (a / 4), b64char (a % 4 * 16), '=', '='] =
        [b64char (a / 4), b64char (a % 4 * 16)] from by
      simp [stripPad, dropPads, h2]]
    rw [show padTo4 [b64char (a / 4), b64char (a % 4 * 16)] =
        [b64char (a / 4), b64char (a % 4 * 16), '=', '='] from by
      simp [padTo4, List.replicate]]
    simp only [b64decodeChars, if_pos rfl, b64DecGroup2,
      b64val_b64char (show a / 4 < 64 by omega),
      b64val_b64char (show a % 4 * 16 < 64 by omega)]
    rw [show a / 4 * 4 + a % 4 * 16 / 16 = a by omega]
    simp
  | [a, b], h => by
    have ha : a < 256 := h a (by simp)
    have hb : b < 256 := h b (by simp)
    have h3 : b64char (b % 16 * 4) ≠ '=' := b64char_ne_pad (by omega)
    show b64decodeChars (padTo4 (stripPad
      [b64char (a / 4), b64char (a % 4 * 16 + b / 16), b64char (b % 16 * 4), '='])) =
      some [a, b]
    rw [show stripPad
        [b64char (a / 4), b64char (a % 4 * 16 + b / 16), b64char (b % 16 * 4), '='] =
        [b64char (a / 4), b64char (a % 4 * 16 + b / 16), b64char (b % 16 * 4)] from by
      simp [stripPad, dropPads, h3]]
    rw [show padTo4
        [b64char (a / 4), b64char (a % 4 * 16 + b / 16), b64char (b % 16 * 4)] =
        [b64char (a / 4), b64char (a % 4 * 16 + b / 16), b64char (b % 16 * 4), '='] from by
      simp [padTo4, List.replicate]]
    simp only [b64decodeChars, if_pos rfl, if_neg h3, b64DecGroup3,
      b64val_b64char (show a / 4 < 64 by omega),
      b64val_b64char (show a % 4 * 16 + b / 16 < 64 by omega),
      b64val_b64char (show b % 16 * 4 < 64 by omega)]
    rw [show a / 4 * 4 + (a % 4 * 16 + b / 16) / 16 = a by omega,
      show (a % 4 * 16 + b / 16) % 16 * 16 + b % 16 * 4 / 4 = b by omega]
    simp
  | a :: b :: c :: rest, h => by
    have ha : a < 256 := h a (by simp)
    have hb : b < 256 := h b (by simp)
    have hc : c < 256 := h c (by simp)
    have hrest : ∀ x ∈ rest, x < 256 := fun x hx => h x (by simp [hx])
    have IH := b64_roundtrip rest hrest
    have h4 : b64char (c % 64) ≠ '=' := b64char_ne_pad (by omega)
    show b64decodeChars (padTo4 (stripPad
      (b64char (a / 4) :: b64char (a % 4 * 16 + b / 16) ::
        b64char (b % 16 * 4 + c / 64) :: b64char (c % 64) ::
        b64EncGroups rest))) = some (a :: b :: c :: rest)
    rw [stripPad_cons4 _ _ _ _ h4, padTo4_cons4]
    simp only [b64decodeChars, if_neg h4, b64DecGroup4,
      b64val_b64char (show a / 4 < 64 by omega),
      b64val_b64char (show a % 4 * 16 + b / 16 < 64 by omega),
      b64val_b64char (show b % 16 * 4 + c / 64 < 64 by omega),
      b64val_b64char (show c % 64 < 64 by omega), IH]
    rw [show a / 4 * 4 + (a % 4 * 16 + b / 16) / 16 = a by omega,
      show (a % 4 * 16 + b / 16) % 16 * 16 + (b % 16 * 4 + c / 64) / 4 = b by omega,
      show (b % 16 * 4 + c / 64) % 4 * 64 + c % 64 = c by omega]
    rfl

/-- A failing `decode_payload` always fails with the malformed-token
error. -/
theorem decode_payload_error_eq {α : Type} (parse : List Nat → Option α)
    (s : String) (e : EsiaErr) (h : decode_payload parse s = Except.error e) :
    e = EsiaErr.incorrectMarkerError := by
  unfold decode_payload at h
  cases hb : b64decodeChars (padTo4 s.data) with
  | none =>
    simp only [hb, Except.error.injEq] at h
    exact h.symm
  | some bytes =>
    simp only [hb] at h
    cases hp : parse bytes with
    | none =>
      simp only [hp, Except.error.injEq] at h
      exact h.symm
    | some v => simp [hp] at h

/-! ### Claim theorems -/

/-- C2: for every parameter map, the canonical string passed to the
signer by `Auth._sign_params` is the separator-free concatenation of the
scope string, the timestamp, the client identifier and the state (each
defaulting to the empty string when absent, in that fixed order), and the
resulting signature is stored under the `client_secret` key. -/
theorem sign_params_canonical (sgn : String → String)
    (params : List (String × String)) :
    sign_params sgn params =
      dinsert params "client_secret"
        (sgn (pyGetStr params "scope" ++ pyGetStr params "timestamp" ++
          pyGetStr params "client_id" ++ pyGetStr params "state")) ∧
    dget (sign_params sgn params) "client_secret" =
      some (sgn (pyGetStr params "scope" ++ pyGetStr params "timestamp" ++
        pyGetStr params "client_id" ++ pyGetStr params "state")) := by
  have hjoin := string_join_four (pyGetStr params "scope")
    (pyGetStr params "timestamp") (pyGetStr params "client_id")
    (pyGetStr params "state")
  constructor
  · simp only [sign_params]
    rw [hjoin]
  · simp only [sign_params]
    rw [hjoin]
    exact dget_dinsert_self _ _ _

/-- C1 counterexample: a caller-supplied keyword argument DOES override
`response_type` in the query parameters of the authorization URL, because
`get_auth_url` merges `**kwargs` after the fixed entries of the params
dict literal. -/
theorem get_auth_url_override_counterexample :
    dget (get_auth_url_params exampleSettings
        "11111111-1111-1111-1111-111111111111" (some "STATE") none none
        [("response_type", "token")] "2026.10.12 00:00:00 +0000"
        "22222222-2222-2222-2222-222222222222" (fun _ => "SIG"))
      "response_type" = some "token" ∧
    some "token" ≠ (some "code" : Option String) :=
  ⟨rfl, by decide⟩

/-- C1 amended: caller-supplied extra keyword parameters may override
every default, including `response_type`, `access_type` and `client_id`;
those three keep their fixed values `code`, `offline` and the configured
client identifier exactly when no keyword argument names them. -/
theorem get_auth_url_fixed_unless_overridden (st : Settings)
    (defaultState : String) (state redirect_uri : Option String)
    (scopes : Option (List Scope)) (kwargs : List (String × String))
    (timestamp fresh : String) (sgn : String → String)
    (h : ∀ kv ∈ kwargs,
      kv.1 ≠ "response_type" ∧ kv.1 ≠ "access_type" ∧ kv.1 ≠ "client_id") :
    dget (get_auth_url_params st defaultState state redirect_uri scopes
      kwargs timestamp fresh sgn) "response_type" = some "code" ∧
    dget (get_auth_url_params st defaultState state redirect_uri scopes
      kwargs timestamp fresh sgn) "access_type" = some "offline" ∧
    dget (get_auth_url_params st defaultState state redirect_uri scopes
      kwargs timestamp fresh sgn) "client_id" = some st.esia_client_id := by
  refine ⟨?_, ?_, ?_⟩
  · simp only [get_auth_url_params, sign_params]
    rw [dget_dinsert_ne _ _ _ _ (by decide)]
    rw [dget_dextend_ne _ _ _ (fun kv hm => (h kv hm).1)]
    rfl
  · simp only [get_auth_url_params, sign_params]
    rw [dget_dinsert_ne _ _ _ _ (by decide)]
    rw [dget_dextend_ne _ _ _ (fun kv hm => (h kv hm).2.1)]
    rfl
  · simp only [get_auth_url_params, sign_params]
    rw [dget_dinsert_ne _ _ _ _ (by decide)]
    rw [dget_dextend_ne _ _ _ (fun kv hm => (h kv hm).2.2)]
    rfl

/-- Witness for the amended C1 statement at a concrete call with an extra
keyword parameter that names none of the three fixed keys. -/
theorem get_auth_url_fixed_unless_overridden_witness :
    dget (get_auth_url_params exampleSettings
        "11111111-1111-1111-1111-111111111111" none none none
        [("display", "popup")] "2026.10.12 00:00:00 +0000"
        "22222222-2222-2222-2222-222222222222" (fun _ => "SIG"))
      "response_type" = some "code" ∧
    dget (get_auth_url_params exampleSettings
        "11111111-1111-1111-1111-111111111111" none none none
        [("display", "popup")] "2026.10.12 00:00:00 +0000"
        "22222222-2222-2222-2222-222222222222" (fun _ => "SIG"))
      "access_type" = some "offline" ∧
    dget (get_auth_url_params exampleSettings
        "11111111-1111-1111-1111-111111111111" none none none
        [("display", "popup")] "2026.10.12 00:00:00 +0000"
        "22222222-2222-2222-2222-222222222222" (fun _ => "SIG"))
      "client_id" = some exampleSettings.esia_client_id :=
  get_auth_url_fixed_unless_overridden exampleSettings
    "11111111-1111-1111-1111-111111111111" none none none
    [("display", "popup")] "2026.10.12 00:00:00 +0000"
    "22222222-2222-2222-2222-222222222222" (fun _ => "SIG") (by decide)

/-- C6: the `state` query parameter of `get_auth_url` does NOT come from
a per-call fresh UUID when the caller omits it: both of two distinct
calls (different per-call fresh values `f1`, `f2`, timestamps, redirect
and scope arguments, signers) use the single `defaultState` value that
Python evaluated once for the `state` parameter default at function
definition time, so un-stated calls share one state value. -/
theorem get_auth_url_default_state_shared (st : Settings) (d : String)
    (hd : d ≠ "") (rv1 rv2 : Option String) (sc1 sc2 : Option (List Scope))
    (t1 t2 f1 f2 : String) (sg1 sg2 : String → String) :
    dget (get_auth_url_params st d none rv1 sc1 [] t1 f1 sg1) "state" = some d ∧
    dget (get_auth_url_params st d none rv2 sc2 [] t2 f2 sg2) "state" = some d := by
  have key : ∀ (rv : Option String) (sc : Option (List Scope)) (t f : String)
      (sg : String → String),
      dget (get_auth_url_params st d none rv sc [] t f sg) "state" = some d := by
    intro rv sc t f sg
    simp only [get_auth_url_params, sign_params]
    rw [dget_dinsert_ne _ _ _ _ (by decide)]
    rw [dget_dextend_ne _ _ _ (by simp)]
    have h1 : resolveState d none f = d := by simp [resolveState, hd]
    simp [dget, h1]
  exact ⟨key rv1 sc1 t1 f1 sg1, key rv2 sc2 t2 f2 sg2⟩

/-- Witness for C6 at a concrete settings value and default state. -/
theorem get_auth_url_default_state_shared_witness :
    dget (get_auth_url_params exampleSettings
      "11111111-1111-1111-1111-111111111111" none none none []
      "2026.10.12 00:00:00 +0000" "33333333-3333-3333-3333-333333333333"
      (fun _ => "SIG1")) "state" =
      some "11111111-1111-1111-1111-111111111111" ∧
    dget (get_auth_url_params exampleSettings
      "11111111-1111-1111-1111-111111111111" none none none []
      "2026.10.13 00:00:00 +0000" "44444444-4444-4444-4444-444444444444"
      (fun _ => "SIG2")) "state" =
      some "11111111-1111-1111-1111-111111111111" :=
  get_auth_url_default_state_shared exampleSettings
    "11111111-1111-1111-1111-111111111111" (by decide) none none none none
    "2026.10.12 00:00:00 +0000" "2026.10.13 00:00:00 +0000"
    "33333333-3333-3333-3333-333333333333"
    "44444444-4444-4444-4444-444444444444" (fun _ => "SIG1") (fun _ => "SIG2")

/-- C3: serializing an object (the `ser`/`parse` pair stands for the JSON
codec, assumed to round-trip on the object at hand), base64url-encoding
the bytes, stripping the trailing `=` padding and applying
`decode_payload` yields the original object.  The statement quantifies
over every byte string, hence over every realizable padding remainder
(0, 1 or 2 stripped `=` characters; a remainder of 3 cannot arise from
base64 output, making that case of the claim vacuous). -/
theorem decode_payload_roundtrip {α : Type} (ser : α → List Nat)
    (parse : List Nat → Option α) (obj : α)
    (hinv : parse (ser obj) = some obj)
    (hbytes : ∀ x ∈ ser obj, x < 256) :
    decode_payload parse (String.mk (stripPad (b64EncGroups (ser obj)))) =
      Except.ok obj := by
  unfold decode_payload
  rw [show (String.mk (stripPad (b64EncGroups (ser obj)))).data =
      stripPad (b64EncGroups (ser obj)) from rfl]
  rw [b64_roundtrip (ser obj) hbytes]
  simp only [hinv]

/-- Witness for C3 on the four-byte string `{"k"` (whose stripped
encoding has length 6, i.e. two padding characters removed). -/
theorem decode_payload_roundtrip_witness :
    decode_payload (fun l => some l)
      (String.mk (stripPad (b64EncGroups [123, 34, 107, 34]))) =
      Except.ok [123, 34, 107, 34] :=
  decode_payload_roundtrip (fun l => l) (fun l => some l) [123, 34, 107, 34]
    rfl (by decide)

/-- C4: on every input, `decode_payload` either returns the mapping
obtained by parsing the base64url-decoded bytes, or fails with exactly
the malformed-token error `IncorrectMarkerError` — never with any other
error: the Python `except (ValueError, Exception)` clause catches every
exception of the decode and parse steps. -/
theorem decode_payload_classification {α : Type} (parse : List Nat → Option α)
    (s : String) :
    (∃ bytes v, b64decodeChars (padTo4 s.data) = some bytes ∧
      parse bytes = some v ∧ decode_payload parse s = Except.ok v) ∨
    decode_payload parse s = Except.error EsiaErr.incorrectMarkerError := by
  cases hb : b64decodeChars (padTo4 s.data) with
  | none =>
    right
    unfold decode_payload
    simp only [hb]
  | some bytes =>
    cases hp : parse bytes with
    | none =>
      right
      unfold decode_payload
      simp only [hb, hp]
    | some v =>
      left
      refine ⟨bytes, v, rfl, hp, ?_⟩
      unfold decode_payload
      simp only [hb, hp]

/-- C7 counterexample: a token exchange whose ID token's middle segment
decodes to a claims object lacking `urn:esia:sbj -> urn:esia:sbj:oid`
makes `complete_authorization` fail with `IncorrectMarkerError` — the
very same error (class) that `decode_payload` produces for garbled
input, so the two failures are not distinguishable by the caller. -/
theorem user_id_error_indistinguishable_counterexample :
    complete_authorization parseEmptyObj exampleSettings "AUTHCODE"
      (some "STATE") none none "2026.10.12 00:00:00 +0000"
      "55555555-5555-5555-5555-555555555555" (fun _ => "SIG")
      (fun _ _ => Except.ok
        [("access_token", "AT"), ("id_token", "hdr.e30.sig")]) =
      Except.error EsiaErr.incorrectMarkerError ∧
    decode_payload parseEmptyObj "!!" =
      Except.error EsiaErr.incorrectMarkerError :=
  ⟨rfl, rfl⟩

/-- C7 amended: on every decoded claims mapping that lacks the nested
subject-identifier path `urn:esia:sbj -> urn:esia:sbj:oid` (the key is
absent at the top level, or it holds a non-dict value, or it holds an
object without `urn:esia:sbj:oid`), `Auth._get_user_id` fails as
follows: when `urn:esia:sbj` holds a non-dict value, subscripting it
raises a `TypeError` that the `except KeyError` clause does not catch;
in every other lacking case it fails with `IncorrectMarkerError` — the
same error value as ANY failing `decode_payload` call — so callers
cannot tell a garbled token from a well-formed token of unexpected shape
by the error type. -/
theorem getUserId_missing_path_classification
    (payload : List (String × JVal))
    (hmiss : ∀ d, lookupJ payload "urn:esia:sbj" = some (JVal.jdict d) →
      lookupJ d "urn:esia:sbj:oid" = none) :
    (∃ s, lookupJ payload "urn:esia:sbj" = some (JVal.jstr s) ∧
      getUserId payload = Except.error (EsiaErr.pyError "TypeError")) ∨
    (getUserId payload = Except.error EsiaErr.incorrectMarkerError ∧
      ∀ (parse : List Nat → Option (List (String × JVal))) (s : String)
        (e : EsiaErr), decode_payload parse s = Except.error e →
        getUserId payload = Except.error e) := by
  cases hl : lookupJ payload "urn:esia:sbj" with
  | none =>
    right
    have hg : getUserId payload = Except.error EsiaErr.incorrectMarkerError := by
      unfold getUserId
      rw [hl]
    refine ⟨hg, ?_⟩
    intro parse s e hdec
    rw [decode_payload_error_eq parse s e hdec]
    exact hg
  | some val =>
    cases val with
    | jstr s =>
      left
      refine ⟨s, rfl, ?_⟩
      unfold getUserId
      rw [hl]
    | jdict d =>
      right
      have hg : getUserId payload = Except.error EsiaErr.incorrectMarkerError := by
        unfold getUserId
        simp only [hl, hmiss d hl]
      refine ⟨hg, ?_⟩
      intro parse s e hdec
      rw [decode_payload_error_eq parse s e hdec]
      exact hg

/-- Witness for the amended C7 statement at a claims object in which
`urn:esia:sbj` is present as an object that lacks `urn:esia:sbj:oid`. -/
theorem getUserId_missing_path_classification_witness :
    (∃ s, lookupJ [("urn:esia:sbj", JVal.jdict [])] "urn:esia:sbj" =
        some (JVal.jstr s) ∧
      getUserId [("urn:esia:sbj", JVal.jdict [])] =
        Except.error (EsiaErr.pyError "TypeError")) ∨
    (getUserId [("urn:esia:sbj", JVal.jdict [])] =
        Except.error EsiaErr.incorrectMarkerError ∧
      ∀ (parse : List Nat → Option (List (String × JVal))) (s : String)
        (e : EsiaErr), decode_payload parse s = Except.error e →
        getUserId [("urn:esia:sbj", JVal.jdict [])] = Except.error e) :=
  getUserId_missing_path_classification [("urn:esia:sbj", JVal.jdict [])]
    (fun d hd => by
      simp [lookupJ] at hd
      subst hd
      rfl)

/-- C5 counterexample: on an `EBS` whose session identifier was never
assigned, `get_result` does NOT fail with a session-state error — there
is no such check in the method.  It issues the result request (the
request log is nonempty) for the URL containing the literal text `None`,
and the overall outcome is whatever the transport produced (here an HTTP
error), which is a different error than the session-state one. -/
theorem ebs_get_result_no_session_check_counterexample :
    (ebs_get_result (fun _ => (none : Option Nat)) ebsUnstarted
      (fun _ => Except.error EsiaErr.httpError)).2 =
      ["https://ebs-int.rtlabs.ru/api/v2/verifications/None/result"] ∧
    (ebs_get_result (fun _ => (none : Option Nat)) ebsUnstarted
      (fun _ => Except.error EsiaErr.httpError)).1 =
      Except.error EsiaErr.httpError ∧
    EsiaErr.httpError ≠ EsiaErr.sessionNotStarted :=
  ⟨rfl, rfl, by decide⟩

/-- C5 amended: `EBS.get_result` performs no session-started check: for
every session object with an unassigned session identifier it issues the
result request, with `str(None) = "None"` as the session path segment. -/
theorem ebs_get_result_unstarted_issues_request {α : Type}
    (parse : List Nat → Option α) (e : EBSState)
    (transport : String → Except EsiaErr (List (String × String)))
    (h : e.session_id = none) :
    (ebs_get_result parse e transport).2 =
      [e.service_url ++ "/api/v2/verifications/None/result"] := by
  simp only [ebs_get_result, ebsResultUrl, h, pyStrOpt]
  rw [String.append_assoc, String.append_assoc]
  rfl

/-- Witness for the amended C5 statement on a concrete unstarted
session. -/
theorem ebs_get_result_unstarted_issues_request_witness :
    (ebs_get_result (fun _ => (none : Option Nat)) ebsUnstarted
      (fun _ => Except.ok [])).2 =
      [ebsUnstarted.service_url ++ "/api/v2/verifications/None/result"] :=
  ebs_get_result_unstarted_issues_request _ _ _ rfl

/-- C8: on a response with status 200 or 302 carrying a (nonempty)
`Location` header, both transports raise the `FoundLocation` signal with
that Location value instead of returning a body, and that signal is a
different error class than `HttpError` and `IncorrectJsonError` (the two
classifications the transports' `except` clauses produce). -/
theorem transport_redirect_signal (r : HttpResponse) (ra : AsyncHttpResponse)
    (l la : String) (h1 : r.status = 200 ∨ r.status = 302)
    (h2 : r.location = some l) (h3 : l ≠ "")
    (h4 : ra.status = 200 ∨ ra.status = 302) (h5 : ra.location = some la)
    (h6 : la ≠ "") :
    make_request r = Except.error (EsiaErr.foundLocation l) ∧
    make_async_request ra = Except.error (EsiaErr.foundLocation la) ∧
    EsiaErr.foundLocation l ≠ EsiaErr.httpError ∧
    EsiaErr.foundLocation l ≠ EsiaErr.incorrectJsonError ∧
    EsiaErr.foundLocation la ≠ EsiaErr.httpError ∧
    EsiaErr.foundLocation la ≠ EsiaErr.incorrectJsonError := by
  refine ⟨?_, ?_, by simp, by simp, by simp, by simp⟩
  · have hs : ¬ (400 ≤ r.status ∧ r.status < 600) := by
      rcases h1 with h | h <;> omega
    have hc : ((r.status == 200 || r.status == 302) &&
        truthyOptStr r.location) = true := by
      rcases h1 with h | h <;> simp [h, truthyOptStr, h2, h3]
    unfold make_request
    rw [if_neg hs, if_pos hc, h2]
    rfl
  · have hs : ¬ 400 ≤ ra.status := by
      rcases h4 with h | h <;> omega
    have hc : ((ra.status == 200 || ra.status == 302) &&
        truthyOptStr ra.location) = true := by
      rcases h4 with h | h <;> simp [h, truthyOptStr, h5, h6]
    unfold make_async_request
    rw [if_neg hs, if_pos hc, h5]
    rfl

/-- Witness for C8: a concrete 302-with-Location response on the sync
path and a concrete 200-with-Location response on the async path. -/
theorem transport_redirect_signal_witness :
    make_request ⟨302, some "https://v/cb?session_id=S1", some "text/html", none⟩ =
      Except.error (EsiaErr.foundLocation "https://v/cb?session_id=S1") ∧
    make_async_request ⟨200, some "https://v/cb?session_id=S2", "text/html", none⟩ =
      Except.error (EsiaErr.foundLocation "https://v/cb?session_id=S2") ∧
    EsiaErr.foundLocation "https://v/cb?session_id=S1" ≠ EsiaErr.httpError ∧
    EsiaErr.foundLocation "https://v/cb?session_id=S1" ≠ EsiaErr.incorrectJsonError ∧
    EsiaErr.foundLocation "https://v/cb?session_id=S2" ≠ EsiaErr.httpError ∧
    EsiaErr.foundLocation "https://v/cb?session_id=S2" ≠ EsiaErr.incorrectJsonError :=
  transport_redirect_signal
    ⟨302, some "https://v/cb?session_id=S1", some "text/html", none⟩
    ⟨200, some "https://v/cb?session_id=S2", "text/html", none⟩
    "https://v/cb?session_id=S1" "https://v/cb?session_id=S2"
    (Or.inr rfl) rfl (by decide) (Or.inl rfl) rfl (by decide)

/-- C10: on every `AsyncEBS` instance, both `start_verification` and
`get_result` fail with Python `AttributeError` before issuing any HTTP
request (empty request log), because the attribute environment written by
`EBS.__init__` and the class bodies of `AsyncEBS`/`EBS` defines neither
`host` nor `_START_URL` nor `_RESULT_URL`. -/
theorem asyncEBS_attribute_error (oid token settingsRepr surl : String)
    (sid : Option String)
    (transport transport2 : String → Except EsiaErr (List (String × String)))
    {α : Type} (parse : List Nat → Option α) (fmt : String → String → String) :
    async_start_verification (asyncEBSAttrs oid token settingsRepr surl sid)
      transport = (Except.error (EsiaErr.pyError "AttributeError"), none, []) ∧
    async_get_result parse (asyncEBSAttrs oid token settingsRepr surl sid)
      fmt transport2 = (Except.error (EsiaErr.pyError "AttributeError"), []) ∧
    dget (asyncEBSAttrs oid token settingsRepr surl sid) "host" = none ∧
    dget (asyncEBSAttrs oid token settingsRepr surl sid) "_START_URL" = none ∧
    dget (asyncEBSAttrs oid token settingsRepr surl sid) "_RESULT_URL" = none := by
  refine ⟨?_, ?_, ?_, ?_, ?_⟩ <;> rfl

